import Mathlib

/-!
Verification development for the FinWise personal-finance tracker
(`app.py`, `config.py`/`models.py`).

The embedding models the pure content of each Flask handler: the database
is an explicit list of rows, request forms are key-value lists, Python
`date` objects are days-since-epoch integers (`Int`), and monetary
amounts are rationals (`Rat`).  Each handler becomes a Lean function from
its inputs and the current store to a result and the updated store.
-/

/-! ## Calendar dates

Python `datetime.date` is isomorphic to a count of days; we use days since
1970-01-01 (`Int`), with conversions to and from the proleptic Gregorian
triple (year, month, day).  The conversions follow the standard
civil-from-days / days-from-civil algorithms; `Int` division in Lean is
Euclidean (floor for positive divisors), which lets the era computation be
a single division. -/

attribute [local semireducible] Rat.mul Rat.add Rat.sub Rat.inv Rat.ofScientific

structure Date where
  year : Int
  month : Nat
  day : Nat
  deriving DecidableEq, Repr

def isLeap (y : Int) : Bool :=
  y % 4 == 0 && (y % 100 != 0 || y % 400 == 0)

def daysInMonth (y : Int) (m : Nat) : Nat :=
  if m = 2 then (if isLeap y then 29 else 28)
  else if m = 4 ∨ m = 6 ∨ m = 9 ∨ m = 11 then 30
  else 31

/-- Days since 1970-01-01 of a civil date (days-from-civil). -/
def toDays (dt : Date) : Int :=
  let y : Int := if dt.month ≤ 2 then dt.year - 1 else dt.year
  let era : Int := y / 400
  let yoe : Int := y - era * 400
  let mp : Int := (dt.month : Int) + (if dt.month > 2 then -3 else 9)
  let doy : Int := (153 * mp + 2) / 5 + (dt.day : Int) - 1
  let doe : Int := yoe * 365 + yoe / 4 - yoe / 100 + doy
  era * 146097 + doe - 719468

/-- Civil date of a days-since-1970-01-01 count (civil-from-days). -/
def fromDays (z0 : Int) : Date :=
  let z := z0 + 719468
  let era : Int := z / 146097
  let doe : Int := z - era * 146097
  let yoe : Int := (doe - doe / 1460 + doe / 36524 - doe / 146096) / 365
  let y : Int := yoe + era * 400
  let doy : Int := doe - (365 * yoe + yoe / 4 - yoe / 100)
  let mp : Int := (5 * doy + 2) / 153
  let d : Int := doy - (153 * mp + 2) / 5 + 1
  let m : Int := mp + (if mp < 10 then 3 else -9)
  { year := if m ≤ 2 then y + 1 else y, month := m.toNat, day := d.toNat }

example : toDays ⟨1970, 1, 1⟩ = 0 := by decide
example : fromDays 0 = ⟨1970, 1, 1⟩ := by decide
example : fromDays (toDays ⟨2024, 3, 31⟩ - 60) = ⟨2024, 1, 31⟩ := by decide
example : fromDays (toDays ⟨2024, 3, 31⟩ - 150) = ⟨2023, 11, 2⟩ := by decide

/-! ## Data model (`models.py`) -/

/-- A row of the `transactions` table.  `amount` is `db.Float`, modelled as
`Rat`; `date` is `db.Date`, modelled as a day number. -/
structure Transaction where
  id : Nat
  user_id : Nat
  amount : Rat
  category : String
  description : String
  date : Int
  deriving DecidableEq, Repr

/-- A row of the `users` table (fields the handlers use). -/
structure User where
  id : Nat
  name : String
  email : String
  password_hash : String
  deriving DecidableEq, Repr

/-- A row of the `user_settings` table, with the column defaults of
`models.py` (`budget_alerts=True`, `weekly_summary=True`,
`security_alerts=False`, `theme='light'`). -/
structure UserSettings where
  user_id : Nat
  budget_alerts : Bool := true
  weekly_summary : Bool := true
  security_alerts : Bool := false
  theme : String := "light"
  deriving DecidableEq, Repr

/-! ## Request forms

A Flask `request.form` is modelled as a key-value list; `formGet` is
`request.form.get(key)` (first value or `None`), `formHas` is
`key in request.form`. -/

def formGet (form : List (String × String)) (key : String) : Option String :=
  (form.find? (fun p => p.1 == key)).map (fun p => p.2)

def formHas (form : List (String × String)) (key : String) : Bool :=
  (form.find? (fun p => p.1 == key)).isSome

/-! ## Aggregation engine (`dashboard`, `expenses` GET, `api_dashboard_data`)

Pure functions of a transaction list and the current date (`today`, the
day number of `datetime.now().date()`).  Python's `sum` is a left fold
starting at `0`. -/

/-- `sum(t.amount for t in transactions)` (dashboard line 111, expenses
line 161). -/
def total_spent (txns : List Transaction) : Rat :=
  txns.foldl (fun acc t => acc + t.amount) 0

/-- `[t for t in transactions if t.date >= thirty_days_ago.date()]` where
`thirty_days_ago = datetime.now() - timedelta(days=30)` (lines 114-115).
Subtracting whole days leaves the time of day unchanged, so
`(now - 30 days).date() = now.date() - 30` and the comparison is between
calendar dates only. -/
def recentTransactions (txns : List Transaction) (today : Int) : List Transaction :=
  txns.filter (fun t => today - 30 ≤ t.date)

/-- `monthly_spending = sum(t.amount for t in recent_transactions)`
(line 116). -/
def monthly_spending (txns : List Transaction) (today : Int) : Rat :=
  total_spent (recentTransactions txns today)

/-- `categories[t.category] = categories.get(t.category, 0) + t.amount`
over a dict, modelled as an insertion-ordered association list. -/
def updateAssoc (acc : List (String × Rat)) (k : String) (v : Rat) :
    List (String × Rat) :=
  match acc with
  | [] => [(k, v)]
  | (k0, v0) :: rest =>
      if k0 = k then (k0, v0 + v) :: rest else (k0, v0) :: updateAssoc rest k v

/-- Category breakdown loop (dashboard lines 119-121, api lines 263-265). -/
def categoryBreakdown (txns : List Transaction) : List (String × Rat) :=
  txns.foldl (fun acc t => updateAssoc acc t.category t.amount) []

/-- `max([t.amount for t in transactions]) if transactions else 0`
(line 162). -/
def highest_expense (txns : List Transaction) : Rat :=
  if txns.isEmpty then 0
  else match txns.map (fun t => t.amount) with
       | [] => 0
       | x :: xs => xs.foldl max x

/-- `len(transactions)` (line 163). -/
def transaction_count (txns : List Transaction) : Nat :=
  txns.length

/-! ### Six-month trend (`api_dashboard_data`, lines 267-288) -/

/-- `strftime('%b')` month abbreviations. -/
def monthLabel : Nat → String
  | 1 => "Jan" | 2 => "Feb" | 3 => "Mar" | 4 => "Apr"
  | 5 => "May" | 6 => "Jun" | 7 => "Jul" | 8 => "Aug"
  | 9 => "Sep" | 10 => "Oct" | 11 => "Nov" | 12 => "Dec"
  | _ => ""

structure TrendEntry where
  label : String
  spending : Rat
  earnings : Rat
  savings : Rat
  deriving DecidableEq, Repr

/-- One iteration of the loop `for i in range(5, -1, -1)`:
`month_date = datetime.now() - timedelta(days=30*i)` (time of day is
irrelevant to `.month`/`.year`/`strftime`), real spending summed over
transactions whose month and year match `month_date`, mock earnings
`month_spending + (1000 + i * 100)`. -/
def trendEntry (txns : List Transaction) (today : Int) (i : Nat) : TrendEntry :=
  let month_date := fromDays (today - 30 * i)
  let monthly_transactions := txns.filter (fun t =>
    (fromDays t.date).month == month_date.month &&
    (fromDays t.date).year == month_date.year)
  let month_spending := total_spent monthly_transactions
  let month_earnings := month_spending + (1000 + (i : Rat) * 100)
  { label := monthLabel month_date.month
    spending := month_spending
    earnings := month_earnings
    savings := month_earnings - month_spending }

/-- The four parallel lists of `api_dashboard_data`, merged into one list
of entries, built in loop order `i = 5, 4, 3, 2, 1, 0` (so appended
oldest reference date first). -/
def monthlyTrend (txns : List Transaction) (today : Int) : List TrendEntry :=
  ((List.range 6).reverse).map (trendEntry txns today)

/-! ## Parsing (`expenses` POST, lines 136-148)

`float(request.form.get('amount'))` and
`datetime.strptime(date_str, '%Y-%m-%d').date()`. -/

def allDigits (cs : List Char) : Bool :=
  cs.all Char.isDigit

def digitsToNat (cs : List Char) : Nat :=
  cs.foldl (fun acc c => acc * 10 + (c.toNat - 48)) 0

/-- Model of Python `float(s)` restricted to fixed-point decimal literals
`[+|-]digits[.digits]` (the forms expense entry produces); every other
string is rejected, as `float` raises `ValueError` (and `float(None)`
raises `TypeError`).  The value is kept exact as a rational.  Note that
`float` accepts any sign: nothing here requires positivity. -/
def pyFloat (s : String) : Option Rat :=
  let cs := s.toList
  let sign : Rat := if cs.head? = some '-' then -1 else 1
  let rest := if cs.head? = some '-' ∨ cs.head? = some '+' then cs.drop 1 else cs
  let ip := rest.takeWhile (fun c => c != '.')
  match rest.drop ip.length with
  | [] =>
      if allDigits rest ∧ rest ≠ [] then some (sign * (digitsToNat rest : Rat))
      else none
  | '.' :: fp =>
      if allDigits ip ∧ allDigits fp ∧ (ip ≠ [] ∨ fp ≠ []) then
        some (sign * ((digitsToNat ip : Rat) + (digitsToNat fp : Rat) / (10 : Rat) ^ fp.length))
      else none
  | _ => none

/-- Split a character list at every dash (the groups `s.split('-')` would
produce). -/
def splitDashes (cs : List Char) : List (List Char) :=
  match cs with
  | [] => [[]]
  | '-' :: rest => [] :: splitDashes rest
  | c :: rest =>
      match splitDashes rest with
      | [] => [[c]]
      | g :: gs => (c :: g) :: gs

/-- Model of `datetime.strptime(s, '%Y-%m-%d').date()`: three dash-separated
digit groups (year at most 4 digits and at least 1, month 1-12, day valid
for that month); any other string raises and is rejected.  Returns the day
number of the parsed date. -/
def parseDate (s : String) : Option Int :=
  match splitDashes s.toList with
  | [yc, mc, dc] =>
      if allDigits yc ∧ yc ≠ [] ∧ yc.length ≤ 4 ∧
         allDigits mc ∧ mc ≠ [] ∧ allDigits dc ∧ dc ≠ [] then
        let y : Int := (digitsToNat yc : Int)
        let m := digitsToNat mc
        let d := digitsToNat dc
        if 1 ≤ y ∧ 1 ≤ m ∧ m ≤ 12 ∧ 1 ≤ d ∧ d ≤ daysInMonth y m then
          some (toDays ⟨y, m, d⟩)
        else none
      else none
  | _ => none

example : pyFloat "-5" = some (-5) := by decide
example : pyFloat "40.5" = some (81 / 2) := by decide
example : pyFloat "abc" = none := by decide
example : parseDate "2024-01-05" = some (toDays ⟨2024, 1, 5⟩) := by decide
example : parseDate "2024-13-05" = none := by decide
example : parseDate "2024-02-30" = none := by decide

/-! ## Transaction store handlers -/

/-- The POST branch of `expenses` (lines 136-154).  `none` models the
request aborting with an exception before the row is persisted:
`float`/`strptime` raising on a malformed or missing `amount`/`date`, or
the NOT NULL constraint on `category`/`description` failing the commit.
On success the new row is appended to the store. -/
def expensesPost (form : List (String × String)) (userId nextId : Nat)
    (txns : List Transaction) : Option (List Transaction) :=
  match (formGet form "amount").bind pyFloat with
  | none => none
  | some amount =>
      match formGet form "category", formGet form "description",
            (formGet form "date").bind parseDate with
      | some category, some description, some date =>
          some (txns ++ [{ id := nextId, user_id := userId, amount := amount,
                           category := category, description := description,
                           date := date }])
      | _, _, _ => none

inductive DeleteResult where
  /-- `get_or_404` aborts with 404 when the id has no row. -/
  | notFound
  /-- flash `'Unauthorized action'` and redirect without deleting. -/
  | forbidden
  /-- row deleted, flash success. -/
  | deleted
  deriving DecidableEq, Repr

/-- `delete_expense` (lines 171-184): fetch by primary key or 404, reject
when the owner differs from the current user, otherwise delete the row. -/
def delete_expense (userId tid : Nat) (txns : List Transaction) :
    DeleteResult × List Transaction :=
  match txns.find? (fun t => t.id == tid) with
  | none => (.notFound, txns)
  | some t =>
      if t.user_id ≠ userId then (.forbidden, txns)
      else (.deleted, txns.eraseP (fun u => u.id == tid))

/-! ## Settings store (`settings`, lines 191-218) -/

/-- The `update_notifications` branch of the settings POST handler
(lines 209-212): each flag is assigned the presence of its key in the
submitted form, so a key absent from the form clears its flag. -/
def update_notifications (form : List (String × String)) (s : UserSettings) :
    UserSettings :=
  { s with budget_alerts := formHas form "budget_alerts"
           weekly_summary := formHas form "weekly_summary"
           security_alerts := formHas form "security_alerts" }

/-! ## Credential store (`login`, lines 41-53; `signup`, lines 62-92)

Password hashing (`werkzeug`) is external; the hash function and the
hash-check predicate are parameters of the model. -/

inductive LoginResult where
  /-- `login_user(user, remember=True)` then redirect. -/
  | success (userId : Nat)
  /-- `flash('Invalid email or password', 'error')` and re-render. -/
  | failure (msg : String)
  deriving DecidableEq, Repr

/-- The POST branch of `login`: look the user up by email; on a missing
user or a failed password check, fall through to the same flash message. -/
def loginPost (checkPw : String → String → Bool) (users : List User)
    (email password : String) : LoginResult :=
  match users.find? (fun u => u.email == email) with
  | some u =>
      if checkPw u.password_hash password then .success u.id
      else .failure "Invalid email or password"
  | none => .failure "Invalid email or password"

inductive SignupResult where
  | success (userId : Nat)
  | failure (msg : String)
  deriving DecidableEq, Repr

/-- Python truthiness of a form field: `None` and the empty string are
falsy, so `all([name, email, password, confirm])` fails on either. -/
def falsyField (v : Option String) : Bool :=
  match v with
  | none => true
  | some s => s.isEmpty

/-- The POST branch of `signup` (lines 62-92): validate the form, reject a
duplicate email, then insert the user row and immediately afterwards a
`UserSettings(user_id=user.id)` row carrying the column defaults. -/
def signup (hashFn : String → String) (form : List (String × String))
    (nextId : Nat) (users : List User) (settingsRows : List UserSettings) :
    SignupResult × List User × List UserSettings :=
  let nm := formGet form "name"
  let em := formGet form "email"
  let pw := formGet form "password"
  let cf := formGet form "confirm"
  if falsyField nm ∨ falsyField em ∨ falsyField pw ∨ falsyField cf then
    (.failure "Please fill in all fields", users, settingsRows)
  else if pw ≠ cf then
    (.failure "Passwords do not match", users, settingsRows)
  else if (users.find? (fun u => u.email == em.getD "")).isSome then
    (.failure "Email already registered", users, settingsRows)
  else
    (.success nextId,
     users ++ [{ id := nextId, name := nm.getD "", email := em.getD "",
                 password_hash := hashFn (pw.getD "") }],
     settingsRows ++ [{ user_id := nextId }])

/-! ## Export formatter (`export_data`, lines 220-247) -/

/-- `csv.writer` field quoting (QUOTE_MINIMAL): a field containing the
delimiter, the quote character or a line break is wrapped in double
quotes with inner quotes doubled. -/
def csvQuoteNeeded (cs : List Char) : Bool :=
  cs.any (fun c => c == ',' || c == '"' || c == '\r' || c == '\n')

def csvEscape (cs : List Char) : List Char :=
  cs.foldr (fun c acc => if c = '"' then '"' :: '"' :: acc else c :: acc) []

def csvField (s : String) : String :=
  if csvQuoteNeeded s.toList then
    String.mk ('"' :: csvEscape s.toList ++ ['"'])
  else s

/-- `writer.writerow(fields)` without its trailing line terminator. -/
def csvRow (fields : List String) : String :=
  String.intercalate "," (fields.map csvField)

/-- Two digits, for `%m`/`%d` and the cents part of `%.2f`. -/
def pad2 (n : Nat) : String :=
  String.mk [Nat.digitChar (n / 10 % 10), Nat.digitChar (n % 10)]

/-- Digits of a `Nat` (most significant first). -/
def natDigits (n : Nat) : List Char :=
  (Nat.toDigits 10 n)

/-- `t.date.strftime('%Y-%m-%d')`: four-digit year, two-digit month and
day. -/
def formatDate (z : Int) : String :=
  let dt := fromDays z
  let y := dt.year.toNat
  let ys := natDigits y
  let ypad := List.replicate (4 - ys.length) '0' ++ ys
  String.mk ypad ++ "-" ++ pad2 dt.month ++ "-" ++ pad2 dt.day

/-- Round a rational to the nearest integer, ties to even — the rounding
`%.2f` applies to the (exactly represented) scaled value. -/
def roundHalfEven (q : Rat) : Int :=
  let fl := q.floor
  let fr := q - (fl : Rat)
  if fr < 1 / 2 then fl
  else if 1 / 2 < fr then fl + 1
  else if fl % 2 = 0 then fl else fl + 1

/-- Model of `f'{x:.2f}'`: sign, integer part, `'.'`, exactly two digits
of cents. -/
def format2 (q : Rat) : String :=
  let m := (roundHalfEven (|q| * 100)).toNat
  let sign := if q < 0 then "-" else ""
  sign ++ String.mk (natDigits (m / 100)) ++ "." ++ pad2 (m % 100)

example : format2 (40.5 : Rat) = "40.50" := by decide
example : format2 ((-5 : Int) : Rat) = "-5.00" := by decide
example : formatDate (toDays ⟨2024, 1, 5⟩) = "2024-01-05" := by decide

inductive ExportResult where
  /-- `flash(msg, category)` then redirect to the expenses page. -/
  | redirectTo (msg category : String)
  /-- the CSV response, line by line. -/
  | csvLines (lines : List String)
  deriving DecidableEq, Repr

/-- One data row of the export: `[t.date.strftime('%Y-%m-%d'), t.category,
t.description, f'{t.amount:.2f}']`. -/
def exportRow (t : Transaction) : String :=
  csvRow [formatDate t.date, t.category, t.description, format2 t.amount]

/-- `export_data` (lines 220-247): refuse an empty transaction list with
an informational flash; otherwise emit the header row then one row per
transaction in list order. -/
def export_data (txns : List Transaction) : ExportResult :=
  if txns.isEmpty then .redirectTo "No data to export" "info"
  else .csvLines (csvRow ["Date", "Category", "Description", "Amount"]
                    :: txns.map exportRow)

/-! ## Helper lemmas -/

theorem total_spent_eq_sum (txns : List Transaction) :
    total_spent txns = (txns.map (fun t => t.amount)).sum := by
  have key : ∀ (l : List Transaction) (a : Rat),
      l.foldl (fun acc t => acc + t.amount) a = a + (l.map (fun t => t.amount)).sum := by
    intro l
    induction l with
    | nil => intro a; simp
    | cons x xs ih => intro a; simp [ih, add_assoc]
  simpa using key txns 0

example : csvRow ["Date", "Category", "Description", "Amount"]
    = "Date,Category,Description,Amount" := by decide

/-! ## Claim theorems -/

/-- C9: on the empty transaction sequence every aggregate yields its
zero/empty value, and for every transaction set the total spent is the
sum of the amounts. -/
theorem C9_empty_aggregates_and_total (txns : List Transaction) (today : Int) :
    total_spent [] = 0 ∧ monthly_spending [] today = 0 ∧
    highest_expense [] = 0 ∧ transaction_count [] = 0 ∧
    categoryBreakdown [] = [] ∧
    total_spent txns = (txns.map (fun t => t.amount)).sum :=
  ⟨rfl, rfl, rfl, rfl, rfl, total_spent_eq_sum txns⟩

/-- C4: the 30-day window of `recentSpending` is inclusive at its lower
bound: a transaction dated exactly 30 day-numbers before today is kept, a
transaction dated 31 days before is dropped, and membership in the window
is exactly the date-only comparison `today - 30 ≤ date`. -/
theorem C4_recent_window_boundary (txns : List Transaction) (today : Int)
    (t : Transaction) (ht : t ∈ txns) :
    (t ∈ recentTransactions txns today ↔ today - 30 ≤ t.date) ∧
    (t.date = today - 30 → t ∈ recentTransactions txns today) ∧
    (t.date = today - 31 → t ∉ recentTransactions txns today) := by
  refine ⟨?_, ?_, ?_⟩
  · simp [recentTransactions, List.mem_filter, ht]
  · intro h
    simp [recentTransactions, List.mem_filter, ht, h]
  · intro h
    simp only [recentTransactions, List.mem_filter, ht, h, true_and,
      decide_eq_true_eq]
    omega

theorem C4_recent_window_boundary_witness :
    (⟨1, 1, 5, "food", "lunch", -30⟩ : Transaction)
        ∈ recentTransactions [⟨1, 1, 5, "food", "lunch", -30⟩] 0 ∧
    (⟨2, 1, 5, "food", "lunch", -31⟩ : Transaction)
        ∉ recentTransactions [⟨2, 1, 5, "food", "lunch", -31⟩] 0 :=
  ⟨(C4_recent_window_boundary _ 0 _ (by simp)).2.1 rfl,
   (C4_recent_window_boundary _ 0 _ (by simp)).2.2 rfl⟩

/-- C6: each notification flag is set to exactly the presence of its key
in the update request, so a request naming only `budget_alerts` sets that
flag and clears the other two. -/
theorem C6_notification_flags (form : List (String × String)) (s : UserSettings) :
    ((update_notifications form s).budget_alerts = formHas form "budget_alerts" ∧
     (update_notifications form s).weekly_summary = formHas form "weekly_summary" ∧
     (update_notifications form s).security_alerts = formHas form "security_alerts") ∧
    update_notifications [("action", "update_notifications"), ("budget_alerts", "on")] s
      = { s with budget_alerts := true, weekly_summary := false,
                 security_alerts := false } :=
  ⟨⟨rfl, rfl, rfl⟩, rfl⟩

/-- C8: a login attempt with an unknown email and one with a known email
but mismatching password produce the same observable result, the
`Invalid email or password` failure. -/
theorem C8_uniform_login_failure (checkPw : String → String → Bool)
    (users : List User) (e1 p1 e2 p2 : String) (u : User)
    (h1 : users.find? (fun x => x.email == e1) = none)
    (h2 : users.find? (fun x => x.email == e2) = some u)
    (h3 : checkPw u.password_hash p2 = false) :
    loginPost checkPw users e1 p1 = loginPost checkPw users e2 p2 ∧
    loginPost checkPw users e1 p1 = .failure "Invalid email or password" := by
  simp [loginPost, h1, h2, h3]

theorem C8_uniform_login_failure_witness :
    loginPost (fun h p => h == p) [⟨1, "n", "a@b.c", "pw"⟩] "x@y.z" "pw"
        = loginPost (fun h p => h == p) [⟨1, "n", "a@b.c", "pw"⟩] "a@b.c" "wrong" :=
  (C8_uniform_login_failure (fun h p => h == p) [⟨1, "n", "a@b.c", "pw"⟩]
    "x@y.z" "pw" "a@b.c" "wrong" ⟨1, "n", "a@b.c", "pw"⟩ rfl rfl rfl).1

theorem find_by_id_of_nodup (txns : List Transaction) (tid : Nat)
    (hids : (txns.map (fun t => t.id)).Nodup) (t : Transaction)
    (ht : t ∈ txns) (htid : t.id = tid) :
    txns.find? (fun x => x.id == tid) = some t := by
  induction txns with
  | nil => cases ht
  | cons x xs ih =>
      simp only [List.map_cons, List.nodup_cons] at hids
      rcases List.mem_cons.mp ht with rfl | hmem
      · exact List.find?_cons_of_pos _ (by simp [htid])
      · have hx : x.id ≠ tid := by
          intro heq
          have h1 : t.id ∈ xs.map (fun t => t.id) := by
            simpa using List.mem_map_of_mem (fun t => t.id) hmem
          rw [htid, ← heq] at h1
          exact hids.1 h1
        rw [List.find?_cons_of_neg _ (by simp [hx])]
        exact ih hids.2 hmem

/-- C3: with distinct transaction ids, deleting an id owned by another
user fails as forbidden and leaves the store unchanged, and deleting an
id that no transaction carries fails as not-found, also leaving the store
unchanged. -/
theorem C3_delete_authorization (userId tid : Nat) (txns : List Transaction)
    (hids : (txns.map (fun t => t.id)).Nodup) :
    ((∀ t ∈ txns, t.id ≠ tid) →
        delete_expense userId tid txns = (.notFound, txns)) ∧
    (∀ t ∈ txns, t.id = tid → t.user_id ≠ userId →
        delete_expense userId tid txns = (.forbidden, txns)) := by
  constructor
  · intro hnone
    have : txns.find? (fun x => x.id == tid) = none := by
      rw [List.find?_eq_none]
      intro x hx
      simpa using hnone x hx
    simp [delete_expense, this]
  · intro t ht htid howner
    have hfind := find_by_id_of_nodup txns tid hids t ht htid
    simp [delete_expense, hfind, howner]

theorem C3_delete_authorization_witness :
    delete_expense 1 7 [⟨7, 2, 5, "food", "lunch", 0⟩]
        = (.forbidden, [⟨7, 2, 5, "food", "lunch", 0⟩]) ∧
    delete_expense 1 9 [⟨7, 2, 5, "food", "lunch", 0⟩]
        = (.notFound, [⟨7, 2, 5, "food", "lunch", 0⟩]) :=
  ⟨(C3_delete_authorization 1 7 [⟨7, 2, 5, "food", "lunch", 0⟩] (by simp)).2
      ⟨7, 2, 5, "food", "lunch", 0⟩ (by simp) rfl (by decide),
   (C3_delete_authorization 1 9 [⟨7, 2, 5, "food", "lunch", 0⟩] (by simp)).1
      (by intro t ht; simp at ht; simp [ht])⟩

/-- C10: whenever signup succeeds, the updated settings store already
contains a row for the new user with the eager defaults
`budget_alerts = true`, `weekly_summary = true`, `security_alerts = false`
and `theme = 'light'`. -/
theorem C10_signup_creates_settings (hashFn : String → String)
    (form : List (String × String)) (nextId : Nat) (users : List User)
    (settingsRows : List UserSettings) (uid : Nat) (newUsers : List User)
    (newSettings : List UserSettings)
    (h : signup hashFn form nextId users settingsRows
           = (.success uid, newUsers, newSettings)) :
    ∃ s ∈ newSettings,
      s.user_id = uid ∧ s.budget_alerts = true ∧ s.weekly_summary = true ∧
      s.security_alerts = false ∧ s.theme = "light" := by
  simp only [signup] at h
  split at h
  · simp at h
  · split at h
    · simp at h
    · split at h
      · simp at h
      · rw [Prod.mk.injEq, Prod.mk.injEq] at h
        obtain ⟨h1, _, h3⟩ := h
        obtain rfl : nextId = uid := by
          cases h1
          rfl
        refine ⟨{ user_id := nextId }, ?_, rfl, rfl, rfl, rfl, rfl⟩
        rw [← h3]
        simp

theorem C10_signup_creates_settings_witness :
    ∃ s ∈ [({ user_id := 1 } : UserSettings)],
      s.user_id = 1 ∧ s.budget_alerts = true ∧ s.weekly_summary = true ∧
      s.security_alerts = false ∧ s.theme = "light" :=
  C10_signup_creates_settings (fun p => p) [("name", "n"), ("email", "e@x.y"),
    ("password", "p"), ("confirm", "p")] 1 [] [] 1
    [{ id := 1, name := "n", email := "e@x.y", password_hash := "p" }]
    [{ user_id := 1 }] (by decide)

theorem range6_reverse : (List.range 6).reverse = [5, 4, 3, 2, 1, 0] := by
  decide

theorem monthlyTrend_map_label (txns : List Transaction) (today : Int) :
    (monthlyTrend txns today).map TrendEntry.label
      = [150, 120, 90, 60, 30, 0].map
          (fun k => monthLabel (fromDays (today - k)).month) := by
  simp only [monthlyTrend, range6_reverse, List.map_map, List.map_cons,
    List.map_nil, Function.comp, trendEntry]
  norm_num

/-- C1 counterexample: at `now = 2024-03-31` the six labels are
`Nov, Dec, Jan, Jan, Mar, Mar` — not pairwise distinct, and not the last
six calendar months (February is skipped), because the loop steps back in
30-day increments rather than calendar months. -/
theorem C1_counterexample :
    (monthlyTrend [] (toDays ⟨2024, 3, 31⟩)).map TrendEntry.label
        = ["Nov", "Dec", "Jan", "Jan", "Mar", "Mar"] ∧
    ¬ ((monthlyTrend [] (toDays ⟨2024, 3, 31⟩)).map TrendEntry.label).Nodup := by
  constructor
  · decide
  · decide

/-- C1 amended: `monthlyTrend` always returns exactly 6 entries, one per
reference date `now - 150, 120, 90, 60, 30, 0` days in that (oldest
first, weakly increasing) order, each labelled with the month
abbreviation of its reference date; the labels need not be pairwise
distinct, and the entries need not cover the last 6 calendar months. -/
theorem C1_amended (txns : List Transaction) (today : Int) :
    (monthlyTrend txns today).length = 6 ∧
    (monthlyTrend txns today).map TrendEntry.label
      = [150, 120, 90, 60, 30, 0].map
          (fun k => monthLabel (fromDays (today - k)).month) ∧
    List.Pairwise (fun a b => a ≤ b)
      ([150, 120, 90, 60, 30, 0].map (fun k : Int => today - k)) := by
  refine ⟨by simp [monthlyTrend], monthlyTrend_map_label txns today, ?_⟩
  simp only [List.map_cons, List.map_nil, List.pairwise_cons, List.mem_cons,
    List.mem_singleton, List.not_mem_nil]
  norm_num
  omega

theorem monthFilter_eq (txns : List Transaction) (m : Nat) (y : Int) :
    txns.filter (fun t => (fromDays t.date).month == m
        && (fromDays t.date).year == y)
      = txns.filter (fun t => (fromDays t.date).month = m
          ∧ (fromDays t.date).year = y) := by
  apply List.filter_congr
  intro t _
  rw [Bool.eq_iff_iff]
  simp

theorem trendEntry_spec (txns : List Transaction) (today : Int) (i : Nat) :
    (trendEntry txns today i).spending
        = ((txns.filter (fun t =>
              (fromDays t.date).month = (fromDays (today - 30 * i)).month
              ∧ (fromDays t.date).year = (fromDays (today - 30 * i)).year)).map
            (fun t => t.amount)).sum
    ∧ (trendEntry txns today i).earnings
        = (trendEntry txns today i).spending + (1000 + (i : Rat) * 100)
    ∧ (trendEntry txns today i).savings
        = (trendEntry txns today i).earnings - (trendEntry txns today i).spending := by
  refine ⟨?_, rfl, rfl⟩
  show total_spent _ = _
  rw [total_spent_eq_sum, monthFilter_eq]

/-- C5: in the entry at position `j` (0-based, oldest first, so offset
`i = 5 - j`), spending is the sum of the amounts of the transactions
whose month and year both match the entry's reference month, earnings is
`spending + (1000 + i * 100)`, and savings is `earnings - spending`. -/
theorem C5_trend_entry_formulas (txns : List Transaction) (today : Int)
    (j : Nat) (h : j < 6) :
    ((monthlyTrend txns today).getD j ⟨"", 0, 0, 0⟩).spending
        = ((txns.filter (fun t =>
              (fromDays t.date).month = (fromDays (today - 30 * ((5 - j : Nat) : Int))).month
              ∧ (fromDays t.date).year = (fromDays (today - 30 * ((5 - j : Nat) : Int))).year)).map
            (fun t => t.amount)).sum
    ∧ ((monthlyTrend txns today).getD j ⟨"", 0, 0, 0⟩).earnings
        = ((monthlyTrend txns today).getD j ⟨"", 0, 0, 0⟩).spending
            + (1000 + ((5 - j : Nat) : Rat) * 100)
    ∧ ((monthlyTrend txns today).getD j ⟨"", 0, 0, 0⟩).savings
        = ((monthlyTrend txns today).getD j ⟨"", 0, 0, 0⟩).earnings
            - ((monthlyTrend txns today).getD j ⟨"", 0, 0, 0⟩).spending := by
  have hget : (monthlyTrend txns today).getD j ⟨"", 0, 0, 0⟩
      = trendEntry txns today (5 - j) := by
    interval_cases j <;> simp [monthlyTrend, range6_reverse]
  rw [hget]
  exact trendEntry_spec txns today (5 - j)

theorem C5_trend_entry_formulas_witness :
    ((monthlyTrend [] 0).getD 0 ⟨"", 0, 0, 0⟩).savings
        = ((monthlyTrend [] 0).getD 0 ⟨"", 0, 0, 0⟩).earnings
            - ((monthlyTrend [] 0).getD 0 ⟨"", 0, 0, 0⟩).spending :=
  (C5_trend_entry_formulas [] 0 0 (by decide)).2.2

/-- C2 counterexample: the non-positive amount `-5` is not rejected — the
handler parses it successfully and persists a transaction row with a
negative amount, contradicting `parses amount as a positive decimal ...
for every malformed input (including a non-positive amount) it fails with
ValidationError before any persistence`. -/
theorem C2_counterexample :
    expensesPost [("amount", "-5"), ("category", "food"), ("description", "x"),
        ("date", "2024-01-05")] 1 1 []
      = some [{ id := 1, user_id := 1, amount := -5, category := "food",
                description := "x", date := toDays ⟨2024, 1, 5⟩ }]
    ∧ (-5 : Rat) < 0 := by
  constructor
  · decide
  · decide

/-- C2 amended: transaction creation parses the amount with Python
`float` (which accepts any sign — there is no positivity check) and the
date as an ISO `YYYY-MM-DD` calendar date; whenever the amount or the
date fails to parse the request fails before persistence and no row is
written, and every persisted row carries exactly the parsed form
values — including non-positive amounts. -/
theorem C2_amended (form : List (String × String)) (userId nextId : Nat)
    (txns : List Transaction) :
    ((formGet form "amount").bind pyFloat = none ∨
        (formGet form "date").bind parseDate = none →
        expensesPost form userId nextId txns = none) ∧
    (∀ newTxns, expensesPost form userId nextId txns = some newTxns →
        ∃ a c d dt, (formGet form "amount").bind pyFloat = some a ∧
          formGet form "category" = some c ∧
          formGet form "description" = some d ∧
          (formGet form "date").bind parseDate = some dt ∧
          newTxns = txns ++ [{ id := nextId, user_id := userId, amount := a,
                               category := c, description := d, date := dt }]) := by
  constructor
  · intro h
    unfold expensesPost
    rcases h with h | h
    · rw [h]
    · cases ha : (formGet form "amount").bind pyFloat with
      | none => rfl
      | some a =>
          cases hc : formGet form "category" with
          | none => cases hd : formGet form "description" <;> simp [hc, hd, h]
          | some c => cases hd : formGet form "description" <;> simp [hc, hd, h]
  · intro newTxns h
    unfold expensesPost at h
    cases ha : (formGet form "amount").bind pyFloat with
    | none => rw [ha] at h; cases h
    | some a =>
        rw [ha] at h
        cases hc : formGet form "category" with
        | none => rw [hc] at h; cases hd : formGet form "description" <;>
            cases hdt : (formGet form "date").bind parseDate <;>
            simp [hd, hdt] at h
        | some c =>
            rw [hc] at h
            cases hd : formGet form "description" with
            | none => cases hdt : (formGet form "date").bind parseDate <;>
                simp [hd, hdt] at h
            | some d =>
                rw [hd] at h
                cases hdt : (formGet form "date").bind parseDate with
                | none => simp [hdt] at h
                | some dt =>
                    rw [hdt] at h
                    exact ⟨a, c, d, dt, rfl, rfl, rfl, rfl, (Option.some_inj.mp h).symm⟩

theorem C2_amended_witness :
    expensesPost [("amount", "abc")] 1 1 [] = none :=
  (C2_amended [("amount", "abc")] 1 1 []).1 (Or.inl (by decide))

theorem digitChar_isDigit (k : Nat) (h : k < 10) :
    (Nat.digitChar k).isDigit = true := by
  interval_cases k <;> decide

theorem format2_two_decimals (q : Rat) :
    ∃ p fr, format2 q = p ++ "." ++ fr ∧ fr.length = 2 ∧
      fr.toList.all Char.isDigit = true := by
  refine ⟨(if q < 0 then "-" else "")
      ++ String.mk (natDigits ((roundHalfEven (|q| * 100)).toNat / 100)),
    pad2 ((roundHalfEven (|q| * 100)).toNat % 100), rfl, rfl, ?_⟩
  have h1 := digitChar_isDigit ((roundHalfEven (|q| * 100)).toNat % 100 / 10 % 10)
    (Nat.mod_lt _ (by norm_num))
  have h2 := digitChar_isDigit ((roundHalfEven (|q| * 100)).toNat % 100 % 10)
    (Nat.mod_lt _ (by norm_num))
  simp [pad2, h1, h2]

/-- C7: on a non-empty transaction list the export is the header line
`Date,Category,Description,Amount` followed by one row per transaction in
list order; every formatted amount ends in a dot and exactly two digits;
the empty list yields no CSV output but an informational (not error)
flash; and the spec's concrete example renders exactly as stated. -/
theorem C7_export_format (txns : List Transaction) (h : txns ≠ []) :
    export_data txns
        = .csvLines ("Date,Category,Description,Amount" :: txns.map exportRow)
    ∧ (∀ q : Rat, ∃ p fr, format2 q = p ++ "." ++ fr ∧ fr.length = 2 ∧
        fr.toList.all Char.isDigit = true)
    ∧ export_data [] = .redirectTo "No data to export" "info"
    ∧ export_data [{ id := 1, user_id := 1, amount := 40.5, category := "gas",
                     description := "fill up", date := toDays ⟨2024, 1, 5⟩ }]
        = .csvLines ["Date,Category,Description,Amount",
                     "2024-01-05,gas,fill up,40.50"] := by
  refine ⟨?_, format2_two_decimals, rfl, by decide⟩
  unfold export_data
  rw [if_neg (by simpa using h)]
  congr 1

theorem C7_export_format_witness :
    export_data [{ id := 1, user_id := 1, amount := 40.5, category := "gas",
                   description := "fill up", date := toDays ⟨2024, 1, 5⟩ }]
      = .csvLines ("Date,Category,Description,Amount"
          :: [({ id := 1, user_id := 1, amount := 40.5, category := "gas",
                 description := "fill up",
                 date := toDays ⟨2024, 1, 5⟩ } : Transaction)].map exportRow) :=
  (C7_export_format _ (List.cons_ne_nil _ _)).1
